import Mathlib

/-!
Verification of the complaint confirmation and evidence-resubmission
workflow (ProfileScreen): EXIF DMS parsing (`parseRational`,
`dmsToDecimal`, `getCoordsFromExif`), the Accept action
(`handleAcceptStatus`), the Reject resubmission pipeline
(`handleImageSelection`), and the confirmation predicate
(`isRecentlyUpdated`).

Modelling conventions:
- JS numbers are rationals (`ℚ`); the JS value `NaN` is modelled by a
  distinct constructor / by `none` in parse results.
- `Number(string)` coercion is modelled by `jsNumber`, restricted to
  plain decimal literals (optional sign, digits, optional fractional
  part; empty string is 0, as in JS).  Hex, exponent and `Infinity`
  literals and surrounding whitespace are not modelled; no claim
  depends on them.
- The asynchronous Reject pipeline is modelled as a pure function of an
  explicit environment (`RejectEnv`) recording every collaborator
  response, returning the user-visible outcome together with the list
  of durable mutations (`RejectEffect`) it performed, in order.
-/

/-- JavaScript values that can appear as a component of an EXIF DMS
array: a finite number, the number `NaN`, a string, or `undefined`. -/
inductive JVal
  | num (q : ℚ)
  | nan
  | str (s : String)
  | undef
deriving DecidableEq, Repr

/-- Numeric value of a list of decimal digit characters (most
significant first). -/
def digitsToNat (l : List Char) : Nat :=
  l.foldl (fun a c => a * 10 + (c.toNat - 48)) 0

/-- Models the JS `Number(string)` coercion on the character list of the
string, restricted to decimal literals: optional sign, integer digits,
optional `.` plus fraction digits.  `none` models `NaN`.  The empty
string coerces to `0`, as in JS. -/
def jsNumberChars (cs : List Char) : Option ℚ :=
  if cs.isEmpty then some 0
  else
    let signBody : ℚ × List Char :=
      match cs with
      | '-' :: t => (-1, t)
      | '+' :: t => (1, t)
      | t => (1, t)
    let sign := signBody.1
    let body := signBody.2
    let ip := body.takeWhile Char.isDigit
    let rest := body.dropWhile Char.isDigit
    match rest with
    | [] => if ip.isEmpty then none else some (sign * digitsToNat ip)
    | '.' :: fp =>
      if fp.all Char.isDigit && (!ip.isEmpty || !fp.isEmpty) then
        some (sign * ((digitsToNat ip : ℚ) +
          (digitsToNat fp : ℚ) / ((10 : ℚ) ^ fp.length)))
      else none
    | _ => none

/-- Models `Number(s)` for a string `s`; `none` models `NaN`. -/
def jsNumber (s : String) : Option ℚ :=
  jsNumberChars s.data

/-- Splits a character list on `/`, mirroring JS `value.split('/')`. -/
def splitSlash : List Char → List (List Char)
  | [] => [[]]
  | c :: t =>
    let r := splitSlash t
    if c = '/' then [] :: r
    else
      match r with
      | h :: t2 => (c :: h) :: t2
      | [] => [[c]]

/-- Models the rational-string branch of `parseRational`: when the
string contains `/`, split it, coerce the first two parts with
`Number`, and return `n / d` when both parts are numeric and `d ≠ 0`.
`none` means this branch does not produce a value and `parseRational`
falls through to `Number(value) || 0`. -/
def ratParse (s : String) : Option ℚ :=
  if s.data.contains '/' then
    match splitSlash s.data with
    | p1 :: p2 :: _ =>
      match jsNumberChars p1, jsNumberChars p2 with
      | some n, some d => if d = 0 then none else some (n / d)
      | _, _ => none
    | _ => none
  else none

/-- Models the source helper `parseRational`: a number is returned as
is (so the JS number `NaN` stays `NaN`, modelled `none`); a string
containing `/` is tried as a rational `n/d`; everything else falls back
to `Number(value) || 0`, which coerces any non-numeric value to `0` and
therefore never yields `NaN`. -/
def parseRational (v : JVal) : Option ℚ :=
  match v with
  | .num q => some q
  | .nan => none
  | .str s =>
    match ratParse s with
    | some q => some q
    | none => some ((jsNumber s).getD 0)
  | .undef => some 0

/-- Models the source helper `dmsToDecimal`: `null` (here `none`) when
the array has fewer than three components or any parsed component is
`NaN`; otherwise `deg + min/60 + sec/3600`, negated when the reference
flag is `S` or `W`. -/
def dmsToDecimal (dms : List JVal) (ref : Option String) : Option ℚ :=
  match dms with
  | d0 :: d1 :: d2 :: _ =>
    match parseRational d0, parseRational d1, parseRational d2 with
    | some deg, some minu, some sec =>
      let dec := deg + minu / 60 + sec / 3600
      some (if ref = some "S" ∨ ref = some "W" then -dec else dec)
    | _, _, _ => none
  | _ => none

/-- EXIF orientation metadata as read by the source: the GPS latitude
and longitude DMS arrays and their single-letter reference flags, each
possibly absent. -/
structure Exif where
  gpsLatitude : Option (List JVal)
  gpsLatitudeRef : Option String
  gpsLongitude : Option (List JVal)
  gpsLongitudeRef : Option String
deriving DecidableEq, Repr

/-- Applies `dmsToDecimal` to a possibly-absent DMS array; an absent
array is not an array, so the source returns `null`. -/
def dmsOpt (a : Option (List JVal)) (ref : Option String) : Option ℚ :=
  match a with
  | some l => dmsToDecimal l ref
  | none => none

/-- Models the source helper `getCoordsFromExif`: both coordinates must
resolve, otherwise `null`. -/
def getCoordsFromExif (e : Exif) : Option (ℚ × ℚ) :=
  match dmsOpt e.gpsLatitude e.gpsLatitudeRef,
        dmsOpt e.gpsLongitude e.gpsLongitudeRef with
  | some la, some lo => some (la, lo)
  | _, _ => none

/-- Complaint row as stored in the `complaints` table.  Timestamps are
epoch milliseconds; `updatedAt` and `submittedDate` are nullable. -/
structure ComplaintRow where
  id : Int
  title : String
  description : String
  categoryId : Int
  status : String
  createdAt : Int
  updatedAt : Option Int
  submittedDate : Option Int
  location : String
  latitude : ℚ
  longitude : ℚ
  photoUrl : String
  createdBy : String
deriving DecidableEq, Repr

/-- Partial update object passed to a row update, mirroring the JS
object literal handed to `.update({...})`: a field is written exactly
when it is `some`. -/
structure UpdatePatch where
  title : Option String := none
  description : Option String := none
  categoryId : Option Int := none
  status : Option String := none
  submittedDate : Option Int := none
  location : Option String := none
  latitude : Option ℚ := none
  longitude : Option ℚ := none
  photoUrl : Option String := none
deriving DecidableEq, Repr

/-- Applies an update patch to a row: each `some` field overwrites, each
`none` field is left untouched.  `updatedAt` is never client-written
(it is server-assigned, see `commitUpdate`). -/
def applyPatch (r : ComplaintRow) (p : UpdatePatch) : ComplaintRow :=
  { r with
    title := p.title.getD r.title,
    description := p.description.getD r.description,
    categoryId := p.categoryId.getD r.categoryId,
    status := p.status.getD r.status,
    submittedDate :=
      match p.submittedDate with
      | some v => some v
      | none => r.submittedDate,
    location := p.location.getD r.location,
    latitude := p.latitude.getD r.latitude,
    longitude := p.longitude.getD r.longitude,
    photoUrl := p.photoUrl.getD r.photoUrl }

/-- Commits an update patch: the row is patched and the store assigns
`updatedAt` the server-side commit time. -/
def commitUpdate (r : ComplaintRow) (p : UpdatePatch) (serverNow : Int) :
    ComplaintRow :=
  { applyPatch r p with updatedAt := some serverNow }

/-- Models the update object built by the source `handleAcceptStatus`
for the current client time `now` (ms): it writes `status := "verified"`
and `submitted_date := now + 2` seconds, and nothing else. -/
def handleAcceptStatus (now : Int) : UpdatePatch :=
  { status := some "verified", submittedDate := some (now + 2000) }

/-- Image source chosen in the Reject dialog. -/
inductive ImageSource
  | camera
  | gallery
deriving DecidableEq, Repr

/-- One reverse-geocode result entry; absent parts are modelled as the
empty string, which JS `filter(Boolean)` drops. -/
structure GeocodeEntry where
  street : String
  city : String
  region : String
  country : String
deriving DecidableEq, Repr

/-- Environment of one `handleImageSelection` run: every collaborator
response the asynchronous code observes, in order. -/
structure RejectEnv where
  source : ImageSource
  sourcePermission : Bool
  canceled : Bool
  imageUri : String
  exif : Option Exif
  locPermission : Bool
  deviceLat : ℚ
  deviceLon : ℚ
  geocode : Except String (List GeocodeEntry)
  keyNow : Int
  updNow : Int
  uploadError : Option String
  updateError : Option String
deriving Repr

/-- Durable mutation performed by the Reject pipeline, in program
order: a successful storage object write, or a successful complaint
row update. -/
inductive RejectEffect
  | storageUpload (fileName : String)
  | rowUpdate (patch : UpdatePatch)
deriving DecidableEq, Repr

/-- User-visible outcome of one `handleImageSelection` run, one
constructor per alert/return site of the source. -/
inductive RejectOutcome
  | permissionRequired (which : ImageSource)
  | canceled
  | gpsError
  | caughtError (msg : String)
  | success
deriving DecidableEq, Repr

/-- Models `error.message || 'Failed to update image'` in the outer
catch. -/
def msgOr (m : String) : String :=
  if m = "" then "Failed to update image" else m

/-- Coordinate the run resolves: EXIF GPS first, else live device
position when the foreground permission is granted, else nothing. -/
def resolvedCoords (env : RejectEnv) : Option (ℚ × ℚ) :=
  match env.exif.bind getCoordsFromExif with
  | some c => some c
  | none =>
    if env.locPermission then some (env.deviceLat, env.deviceLon)
    else none

/-- Fixed placeholder the source initialises `address` with and keeps on
geocoding failure or an empty geocode result. -/
def addressPlaceholder : String := "Location not available"

/-- Models the address join `[street, city, region, country]
.filter(Boolean).join(', ')`. -/
def formatAddress (g : GeocodeEntry) : String :=
  String.intercalate ", "
    (([g.street, g.city, g.region, g.country]).filter (fun p => p ≠ ""))

/-- Address the run persists: placeholder on geocode failure or empty
result, otherwise the joined first entry. -/
def rejectAddress (env : RejectEnv) : String :=
  match env.geocode with
  | .error _ => addressPlaceholder
  | .ok [] => addressPlaceholder
  | .ok (g :: _) => formatAddress g

/-- Models `imageUri.split('.').pop() || 'jpg'`: the suffix after the
last dot (the whole string when there is no dot), defaulting to `jpg`
when that suffix is empty. -/
def fileExtOf (uri : String) : String :=
  let seg := (uri.data.reverse.takeWhile (fun c => c ≠ '.')).reverse
  if seg.isEmpty then "jpg" else String.mk seg

/-- Models the upload key `${Date.now()}.${fileExt}`. -/
def fileNameOf (env : RejectEnv) : String :=
  toString env.keyNow ++ "." ++ fileExtOf env.imageUri

/-- Models `supabase.storage.from('complaints').getPublicUrl(fileName)`
as a pure derivation of the public reference from the object key. -/
def publicUrlOf (fileName : String) : String :=
  "public/complaints/" ++ fileName

/-- Update object the source builds for the final Reject row update:
exactly the new photo reference, coordinate, address, `status :=
"pending"` and `submitted_date := now + 2` seconds — `title`,
`description` and `categoryId` are left out (`none`). -/
def rejectPatch (env : RejectEnv) (lat lon : ℚ) : UpdatePatch :=
  { photoUrl := some (publicUrlOf (fileNameOf env)),
    latitude := some lat,
    longitude := some lon,
    location := some (rejectAddress env),
    status := some "pending",
    submittedDate := some (env.updNow + 2000) }

/-- Models the source `handleImageSelection` as a pure function of the
run environment: picker permission check, cancellation check, EXIF /
live-position coordinate resolution, best-effort reverse geocoding,
storage upload, then the single row update.  Returns the outcome and
the ordered list of durable mutations that actually happened. -/
def handleImageSelection (env : RejectEnv) :
    RejectOutcome × List RejectEffect :=
  if env.sourcePermission = false then
    (.permissionRequired env.source, [])
  else if env.canceled = true then
    (.canceled, [])
  else
    match resolvedCoords env with
    | none => (.gpsError, [])
    | some (lat, lon) =>
      match env.uploadError with
      | some e => (.caughtError (msgOr e), [])
      | none =>
        match env.updateError with
        | some e =>
          (.caughtError (msgOr e),
           [RejectEffect.storageUpload (fileNameOf env)])
        | none =>
          (.success,
           [RejectEffect.storageUpload (fileNameOf env),
            RejectEffect.rowUpdate (rejectPatch env lat lon)])

/-- Milliseconds per day, the divisor `1000 * 60 * 60 * 24` of the
source. -/
def msPerDay : Int := 1000 * 60 * 60 * 24

/-- Models the source `isRecentlyUpdated`: `false` when either
timestamp is absent; otherwise `updated > submitted` and the elapsed
days since the update are at most 7. -/
def isRecentlyUpdated (c : ComplaintRow) (now : Int) : Bool :=
  match c.updatedAt, c.submittedDate with
  | some updated, some submitted =>
    let daysSinceUpdate : ℚ :=
      ((now - updated : ℤ) : ℚ) / (1000 * 60 * 60 * 24)
    decide (submitted < updated) && decide (daysSinceUpdate ≤ 7)
  | _, _ => false

/-- Whether a reject effect is a row update. -/
def isRowUpdateEff : RejectEffect → Bool
  | .rowUpdate _ => true
  | _ => false

/-- Sample complaint row used for concrete instances. -/
def sampleRow : ComplaintRow :=
  { id := 1, title := "Pothole", description := "Large pothole",
    categoryId := 3, status := "verified", createdAt := 0,
    updatedAt := some 0, submittedDate := some 0,
    location := "Main St", latitude := 0, longitude := 0,
    photoUrl := "p.jpg", createdBy := "cit" }

/-- Sample row with both confirmation timestamps overridden. -/
def timedRow (u s : Int) : ComplaintRow :=
  { sampleRow with updatedAt := some u, submittedDate := some s }

/-- Sample current time (ms) for concrete confirmation instances. -/
def nowSample : Int := 1700000000000

/-- Sample environment for the fully successful Reject run. -/
def envOk : RejectEnv :=
  { source := .camera, sourcePermission := true, canceled := false,
    imageUri := "a.jpg", exif := none, locPermission := true,
    deviceLat := 1, deviceLon := 2, geocode := .ok [],
    keyNow := 5, updNow := 0, uploadError := none, updateError := none }

/-- Sample environment with positioning permission refused. -/
def envDenied : RejectEnv := { envOk with locPermission := false }

/-- Sample environment whose storage upload fails. -/
def envUploadFail : RejectEnv := { envOk with uploadError := some "boom" }

/-- Sample environment whose reverse geocoding throws. -/
def envGeoFail : RejectEnv := { envOk with geocode := .error "gc down" }

/-- Sample row with status pending. -/
def pendingRow : ComplaintRow := { sampleRow with status := "pending" }

/-- Sample row whose `updatedAt` is absent. -/
def orphanRow : ComplaintRow := { sampleRow with updatedAt := none }

/-- Elapsed-days comparison of the source equals an integer
millisecond-window comparison. -/
lemma day_window_iff (x : ℤ) :
    ((x : ℚ) / (1000 * 60 * 60 * 24) ≤ 7) ↔ x ≤ 7 * msPerDay := by
  rw [div_le_iff₀ (by norm_num)]
  rw [show (7 : ℚ) * (1000 * 60 * 60 * 24) = ((7 * msPerDay : ℤ) : ℚ) by
    norm_num [msPerDay]]
  exact Int.cast_le

/-- Unfolds `isRecentlyUpdated` when both timestamps are present. -/
lemma isRecentlyUpdated_some (c : ComplaintRow) (u s now : Int)
    (hu : c.updatedAt = some u) (hs : c.submittedDate = some s) :
    isRecentlyUpdated c now =
      (decide (s < u) &&
        decide (((now - u : ℤ) : ℚ) / (1000 * 60 * 60 * 24) ≤ 7)) := by
  unfold isRecentlyUpdated
  rw [hu, hs]

/-- Resolution yields no coordinate exactly when the EXIF metadata
yields none and the positioning permission is refused. -/
lemma resolvedCoords_eq_none_iff (env : RejectEnv) :
    resolvedCoords env = none ↔
      env.exif.bind getCoordsFromExif = none ∧ env.locPermission = false := by
  unfold resolvedCoords
  cases h : env.exif.bind getCoordsFromExif with
  | some c => simp
  | none =>
    cases hl : env.locPermission with
    | false => simp
    | true => simp

/-- Run outcome when the picker permission is refused. -/
lemma his_perm_false (env : RejectEnv) (h : env.sourcePermission = false) :
    handleImageSelection env = (.permissionRequired env.source, []) := by
  unfold handleImageSelection
  rw [h]
  simp

/-- Run outcome when the picker is cancelled. -/
lemma his_canceled (env : RejectEnv) (h1 : env.sourcePermission = true)
    (h2 : env.canceled = true) :
    handleImageSelection env = (.canceled, []) := by
  unfold handleImageSelection
  rw [h1, h2]
  simp

/-- Run outcome when no coordinate can be resolved. -/
lemma his_nocoord (env : RejectEnv) (h1 : env.sourcePermission = true)
    (h2 : env.canceled = false) (h3 : resolvedCoords env = none) :
    handleImageSelection env = (.gpsError, []) := by
  unfold handleImageSelection
  rw [h1, h2, h3]
  simp

/-- Run outcome when the storage upload fails: the caught error is
surfaced and no durable mutation happened. -/
lemma his_uploadFail (env : RejectEnv) (la lo : ℚ) (e : String)
    (h1 : env.sourcePermission = true) (h2 : env.canceled = false)
    (h3 : resolvedCoords env = some (la, lo))
    (h4 : env.uploadError = some e) :
    handleImageSelection env = (.caughtError (msgOr e), []) := by
  unfold handleImageSelection
  rw [h1, h2, h3, h4]
  simp

/-- Run outcome when the final row update fails: the upload happened,
the row update did not. -/
lemma his_updateFail (env : RejectEnv) (la lo : ℚ) (e : String)
    (h1 : env.sourcePermission = true) (h2 : env.canceled = false)
    (h3 : resolvedCoords env = some (la, lo))
    (h4 : env.uploadError = none) (h5 : env.updateError = some e) :
    handleImageSelection env =
      (.caughtError (msgOr e), [RejectEffect.storageUpload (fileNameOf env)]) := by
  unfold handleImageSelection
  rw [h1, h2, h3, h4, h5]
  simp

/-- Run outcome of the fully successful path: one upload then one row
update carrying the reject patch. -/
lemma his_success (env : RejectEnv) (la lo : ℚ)
    (h1 : env.sourcePermission = true) (h2 : env.canceled = false)
    (h3 : resolvedCoords env = some (la, lo))
    (h4 : env.uploadError = none) (h5 : env.updateError = none) :
    handleImageSelection env =
      (.success,
       [RejectEffect.storageUpload (fileNameOf env),
        RejectEffect.rowUpdate (rejectPatch env la lo)]) := by
  unfold handleImageSelection
  rw [h1, h2, h3, h4, h5]
  simp

/-- One-step evaluation of `dmsToDecimal` on a three-element array,
exposing the three component parses. -/
lemma dms_cons (d0 d1 d2 : JVal) (t : List JVal) (ref : Option String) :
    dmsToDecimal (d0 :: d1 :: d2 :: t) ref =
      match parseRational d0, parseRational d1, parseRational d2 with
      | some deg, some minu, some sec =>
        some (if ref = some "S" ∨ ref = some "W"
              then -(deg + minu / 60 + sec / 3600)
              else deg + minu / 60 + sec / 3600)
      | _, _, _ => none := rfl

/-- Evaluation of `dmsToDecimal` on a numeric triple. -/
lemma dms_num_eval (d m s : ℚ) (ref : Option String) :
    dmsToDecimal [JVal.num d, JVal.num m, JVal.num s] ref =
      some (if ref = some "S" ∨ ref = some "W"
            then -(d + m / 60 + s / 3600) else d + m / 60 + s / 3600) := rfl

/-- Fallback of `parseRational` on a string that is neither a plain
numeric literal nor a well-formed rational: `Number(value) || 0`
coerces it to `0`. -/
lemma parseRational_str_fallback (s : String) (h1 : jsNumber s = none)
    (h2 : ratParse s = none) : parseRational (JVal.str s) = some 0 := by
  have hstep : parseRational (JVal.str s) =
      match ratParse s with
      | some q => some q
      | none => some ((jsNumber s).getD 0) := rfl
  rw [hstep, h2, h1]
  rfl

/-- C1 (amended): Accept persists exactly two fields — `status :=
"verified"` and `submittedDate := now + 2` seconds — and leaves every
other client-written field of the complaint unchanged. -/
theorem accept_writes_status_and_ack (r : ComplaintRow) (now : Int) :
    (applyPatch r (handleAcceptStatus now)).status = "verified" ∧
    (applyPatch r (handleAcceptStatus now)).submittedDate = some (now + 2000) ∧
    (applyPatch r (handleAcceptStatus now)).title = r.title ∧
    (applyPatch r (handleAcceptStatus now)).description = r.description ∧
    (applyPatch r (handleAcceptStatus now)).categoryId = r.categoryId ∧
    (applyPatch r (handleAcceptStatus now)).location = r.location ∧
    (applyPatch r (handleAcceptStatus now)).latitude = r.latitude ∧
    (applyPatch r (handleAcceptStatus now)).longitude = r.longitude ∧
    (applyPatch r (handleAcceptStatus now)).photoUrl = r.photoUrl ∧
    (applyPatch r (handleAcceptStatus now)).createdAt = r.createdAt ∧
    (applyPatch r (handleAcceptStatus now)).updatedAt = r.updatedAt ∧
    (applyPatch r (handleAcceptStatus now)).id = r.id ∧
    (applyPatch r (handleAcceptStatus now)).createdBy = r.createdBy :=
  ⟨rfl, rfl, rfl, rfl, rfl, rfl, rfl, rfl, rfl, rfl, rfl, rfl, rfl⟩

/-- C1 counterexample: Accept does alter `status` — on a pending
complaint the committed status is `"verified"`, not the prior value. -/
theorem accept_alters_status_counterexample :
    (applyPatch pendingRow (handleAcceptStatus 1000)).status ≠
      pendingRow.status ∧
    (applyPatch pendingRow (handleAcceptStatus 1000)).status = "verified" :=
  ⟨by decide, rfl⟩

/-- C2 counterexample: a triple whose first component is the
non-numeric, non-rational string "abc" is NOT reported invalid — the
component is silently treated as `0` and the conversion succeeds. -/
theorem nonnumeric_component_zeroed_counterexample :
    dmsToDecimal [JVal.str "abc", JVal.num 30, JVal.num 0] none ≠ none ∧
    dmsToDecimal [JVal.str "abc", JVal.num 30, JVal.num 0] none =
      dmsToDecimal [JVal.num 0, JVal.num 30, JVal.num 0] none := by
  have h0 : parseRational (JVal.str "abc") = parseRational (JVal.num 0) := by
    decide
  have key : dmsToDecimal [JVal.str "abc", JVal.num 30, JVal.num 0] none =
      dmsToDecimal [JVal.num 0, JVal.num 30, JVal.num 0] none := by
    rw [dms_cons, dms_cons, h0]
  refine ⟨?_, key⟩
  rw [key, dms_num_eval]
  simp

/-- C2 (amended): a component that parses neither as a plain number nor
as a "numerator/denominator" rational string is silently coerced to 0
by `Number(value) || 0`; the metadata attempt is NOT invalidated by it
(the conversion behaves as if the component were `0`), at any of the
three positions.  Evaluation is total, so no input crashes. -/
theorem nonnumeric_component_coerced_to_zero (s : String) (a b : JVal)
    (ref : Option String) (h1 : jsNumber s = none) (h2 : ratParse s = none) :
    parseRational (JVal.str s) = some 0 ∧
    dmsToDecimal [JVal.str s, a, b] ref =
      dmsToDecimal [JVal.num 0, a, b] ref ∧
    dmsToDecimal [a, JVal.str s, b] ref =
      dmsToDecimal [a, JVal.num 0, b] ref ∧
    dmsToDecimal [a, b, JVal.str s] ref =
      dmsToDecimal [a, b, JVal.num 0] ref := by
  have h0 : parseRational (JVal.str s) = some 0 :=
    parseRational_str_fallback s h1 h2
  have h0n : parseRational (JVal.num 0) = some 0 := rfl
  refine ⟨h0, ?_, ?_, ?_⟩ <;>
    rw [dms_cons, dms_cons, h0, h0n]

/-- Witness for C2 amended at the concrete component "abc". -/
theorem nonnumeric_component_coerced_to_zero_witness :
    parseRational (JVal.str "abc") = some 0 :=
  (nonnumeric_component_coerced_to_zero "abc" (JVal.num 30) (JVal.num 0) none
    (by decide) (by decide)).1

/-- C3 (confirmed): for every complaint with both timestamps present,
the confirmation predicate holds iff `updatedAt > submittedDate` and
`now - updatedAt ≤ 7` days; moreover it is true for `updatedAt =
now-1d, submittedDate = now-2d`, false for `now-8d / now-9d`, and false
for `now-2d / now-1d`. -/
theorem isRecentlyUpdated_spec :
    (∀ (c : ComplaintRow) (u s now : Int),
      c.updatedAt = some u → c.submittedDate = some s →
      (isRecentlyUpdated c now = true ↔ (s < u ∧ now - u ≤ 7 * msPerDay))) ∧
    isRecentlyUpdated
      (timedRow (nowSample - msPerDay) (nowSample - 2 * msPerDay))
      nowSample = true ∧
    isRecentlyUpdated
      (timedRow (nowSample - 8 * msPerDay) (nowSample - 9 * msPerDay))
      nowSample = false ∧
    isRecentlyUpdated
      (timedRow (nowSample - 2 * msPerDay) (nowSample - msPerDay))
      nowSample = false := by
  refine ⟨?_, ?_, ?_, ?_⟩
  · intro c u s now hu hs
    rw [isRecentlyUpdated_some c u s now hu hs]
    simp only [Bool.and_eq_true, decide_eq_true_eq]
    rw [day_window_iff]
  · unfold isRecentlyUpdated timedRow sampleRow nowSample msPerDay
    norm_num
  · unfold isRecentlyUpdated timedRow sampleRow nowSample msPerDay
    norm_num
  · unfold isRecentlyUpdated timedRow sampleRow nowSample msPerDay
    norm_num

/-- Witness for C3 at the concrete `now-1d / now-2d` instance. -/
theorem isRecentlyUpdated_spec_witness :
    isRecentlyUpdated
      (timedRow (nowSample - msPerDay) (nowSample - 2 * msPerDay))
      nowSample = true :=
  (isRecentlyUpdated_spec.1
      (timedRow (nowSample - msPerDay) (nowSample - 2 * msPerDay))
      (nowSample - msPerDay) (nowSample - 2 * msPerDay) nowSample rfl
      rfl).mpr
    ⟨by norm_num [msPerDay], by norm_num [msPerDay]⟩

/-- C7 (confirmed): on a numeric triple the conversion is
`deg + min/60 + sec/3600`, negated exactly for the `S` and `W`
reference flags; in particular `[10,30,0]` with `"S"` gives `-10.5`
and `[40,0,0]` with `"N"` gives `40`. -/
theorem dmsToDecimal_formula :
    (∀ (d m s : ℚ) (ref : Option String),
      dmsToDecimal [JVal.num d, JVal.num m, JVal.num s] ref =
        some (if ref = some "S" ∨ ref = some "W"
              then -(d + m / 60 + s / 3600) else d + m / 60 + s / 3600)) ∧
    dmsToDecimal [JVal.num 10, JVal.num 30, JVal.num 0] (some "S") =
      some (-(21 / 2)) ∧
    dmsToDecimal [JVal.num 40, JVal.num 0, JVal.num 0] (some "N") =
      some 40 := by
  refine ⟨fun d m s ref => dms_num_eval d m s ref, ?_, ?_⟩
  · unfold dmsToDecimal parseRational
    norm_num
  · unfold dmsToDecimal parseRational
    norm_num
    all_goals decide

/-- C8 counterexample: the all-zero triple is a valid angular triple,
yet with reference flag `S` the resolved decimal is `0`, which is not
negative. -/
theorem dms_zero_triple_south_counterexample :
    dmsToDecimal [JVal.num 0, JVal.num 0, JVal.num 0] (some "S") = some 0 ∧
    ¬ ((0 : ℚ) < 0) := by
  constructor
  · unfold dmsToDecimal parseRational
    norm_num
  · exact lt_irrefl 0

/-- C8 (amended): for a numeric triple with non-negative components,
an `S` or `W` flag yields a non-positive decimal, strictly negative
whenever the angular magnitude is positive; any other (or absent) flag
yields a non-negative decimal.  (Negativity fails exactly on the
zero-magnitude triple, per the counterexample.) -/
theorem dms_sign_of_reference (d m s : ℚ) (hd : 0 ≤ d) (hm : 0 ≤ m)
    (hs : 0 ≤ s) (ref : Option String) :
    ((ref = some "S" ∨ ref = some "W") →
      dmsToDecimal [JVal.num d, JVal.num m, JVal.num s] ref =
        some (-(d + m / 60 + s / 3600)) ∧
      -(d + m / 60 + s / 3600) ≤ 0 ∧
      (0 < d + m / 60 + s / 3600 → -(d + m / 60 + s / 3600) < 0)) ∧
    (¬(ref = some "S" ∨ ref = some "W") →
      dmsToDecimal [JVal.num d, JVal.num m, JVal.num s] ref =
        some (d + m / 60 + s / 3600) ∧
      0 ≤ d + m / 60 + s / 3600) := by
  have h1 : 0 ≤ m / 60 := div_nonneg hm (by norm_num)
  have h2 : 0 ≤ s / 3600 := div_nonneg hs (by norm_num)
  have hsum : 0 ≤ d + m / 60 + s / 3600 := by linarith
  constructor
  · intro h
    rw [dms_num_eval, if_pos h]
    exact ⟨rfl, by linarith, fun hpos => by linarith⟩
  · intro h
    rw [dms_num_eval, if_neg h]
    exact ⟨rfl, hsum⟩

/-- Witness for C8 amended at the triple `[10,30,0]` with flag `S`. -/
theorem dms_sign_of_reference_witness :
    dmsToDecimal [JVal.num 10, JVal.num 30, JVal.num 0] (some "S") =
      some (-(10 + 30 / 60 + 0 / 3600)) :=
  ((dms_sign_of_reference 10 30 0 (by norm_num) (by norm_num) (by norm_num)
      (some "S")).1 (Or.inl rfl)).1

/-- C10 (confirmed): a record missing `updatedAt` or `submittedDate`
never satisfies the confirmation predicate. -/
theorem isRecentlyUpdated_missing_fields (c : ComplaintRow) (now : Int)
    (h : c.updatedAt = none ∨ c.submittedDate = none) :
    isRecentlyUpdated c now = false := by
  unfold isRecentlyUpdated
  rcases h with h | h
  · rw [h]
  · rw [h]
    cases hu : c.updatedAt with
    | none => rfl
    | some u => rfl

/-- Witness for C10 on a row with absent `updatedAt`. -/
theorem isRecentlyUpdated_missing_fields_witness :
    isRecentlyUpdated orphanRow 0 = false :=
  isRecentlyUpdated_missing_fields orphanRow 0 (Or.inl rfl)

/-- C4 (confirmed): a successful Reject ends with exactly one row
update whose patch writes precisely the new photo reference, latitude,
longitude, address, `status := "pending"`, and `submittedDate := now +
2` seconds; `title`, `description` and `categoryId` are not written and
are preserved through the patch; any `updatedAt` the write itself
produces within the 2-second offset is exceeded by the new
`submittedDate`. -/
theorem reject_single_update_fields (env : RejectEnv) (lat lon : ℚ)
    (hperm : env.sourcePermission = true) (hcan : env.canceled = false)
    (hco : resolvedCoords env = some (lat, lon))
    (hup : env.uploadError = none) (hupd : env.updateError = none) :
    handleImageSelection env =
      (RejectOutcome.success,
       [RejectEffect.storageUpload (fileNameOf env),
        RejectEffect.rowUpdate (rejectPatch env lat lon)]) ∧
    (rejectPatch env lat lon).status = some "pending" ∧
    (rejectPatch env lat lon).submittedDate = some (env.updNow + 2000) ∧
    (rejectPatch env lat lon).photoUrl =
      some (publicUrlOf (fileNameOf env)) ∧
    (rejectPatch env lat lon).latitude = some lat ∧
    (rejectPatch env lat lon).longitude = some lon ∧
    (rejectPatch env lat lon).location = some (rejectAddress env) ∧
    (rejectPatch env lat lon).title = none ∧
    (rejectPatch env lat lon).description = none ∧
    (rejectPatch env lat lon).categoryId = none ∧
    ((handleImageSelection env).2.filter isRowUpdateEff).length = 1 ∧
    (∀ (r : ComplaintRow) (t : Int), t < env.updNow + 2000 →
      ∃ u v, (commitUpdate r (rejectPatch env lat lon) t).updatedAt = some u ∧
        (commitUpdate r (rejectPatch env lat lon) t).submittedDate = some v ∧
        u < v) ∧
    (∀ r : ComplaintRow,
      (applyPatch r (rejectPatch env lat lon)).title = r.title ∧
      (applyPatch r (rejectPatch env lat lon)).description = r.description ∧
      (applyPatch r (rejectPatch env lat lon)).categoryId = r.categoryId) := by
  have hmain := his_success env lat lon hperm hcan hco hup hupd
  refine ⟨hmain, rfl, rfl, rfl, rfl, rfl, rfl, rfl, rfl, rfl, ?_, ?_, ?_⟩
  · rw [hmain]
    rfl
  · intro r t ht
    exact ⟨t, env.updNow + 2000, rfl, rfl, ht⟩
  · intro r
    exact ⟨rfl, rfl, rfl⟩

/-- Witness for C4 on the fully successful sample environment. -/
theorem reject_single_update_fields_witness :
    handleImageSelection envOk =
      (RejectOutcome.success,
       [RejectEffect.storageUpload (fileNameOf envOk),
        RejectEffect.rowUpdate (rejectPatch envOk 1 2)]) :=
  (reject_single_update_fields envOk 1 2 rfl rfl rfl rfl rfl).1

/-- C5 (confirmed): any failure before the final persistence step —
picker permission refusal, user cancellation, coordinate-resolution
failure, or upload failure — leaves the complaint row untouched (no
row-update mutation is performed); and the only way to end with an
uploaded object but no row update is a successful upload followed by a
failing final row update. -/
theorem reject_no_partial_write (env : RejectEnv) :
    ((env.sourcePermission = false ∨ env.canceled = true ∨
        resolvedCoords env = none ∨ env.uploadError ≠ none) →
      ∀ p : UpdatePatch,
        RejectEffect.rowUpdate p ∉ (handleImageSelection env).2) ∧
    ((∃ f, RejectEffect.storageUpload f ∈ (handleImageSelection env).2) →
      (∀ p : UpdatePatch,
        RejectEffect.rowUpdate p ∉ (handleImageSelection env).2) →
      env.uploadError = none ∧ env.updateError ≠ none) := by
  constructor
  · intro h p hmem
    cases hsp : env.sourcePermission with
    | false =>
      rw [his_perm_false env hsp] at hmem
      simp at hmem
    | true =>
      cases hc : env.canceled with
      | true =>
        rw [his_canceled env hsp hc] at hmem
        simp at hmem
      | false =>
        cases hr : resolvedCoords env with
        | none =>
          rw [his_nocoord env hsp hc hr] at hmem
          simp at hmem
        | some c =>
          obtain ⟨la, lo⟩ := c
          cases hu : env.uploadError with
          | some e =>
            rw [his_uploadFail env la lo e hsp hc hr hu] at hmem
            simp at hmem
          | none =>
            rcases h with h | h | h | h
            · rw [hsp] at h
              exact Bool.noConfusion h
            · rw [hc] at h
              exact Bool.noConfusion h
            · rw [hr] at h
              exact Option.noConfusion h
            · exact h hu
  · rintro ⟨f, hf⟩ hno
    cases hsp : env.sourcePermission with
    | false =>
      rw [his_perm_false env hsp] at hf
      simp at hf
    | true =>
      cases hc : env.canceled with
      | true =>
        rw [his_canceled env hsp hc] at hf
        simp at hf
      | false =>
        cases hr : resolvedCoords env with
        | none =>
          rw [his_nocoord env hsp hc hr] at hf
          simp at hf
        | some c =>
          obtain ⟨la, lo⟩ := c
          cases hu : env.uploadError with
          | some e =>
            rw [his_uploadFail env la lo e hsp hc hr hu] at hf
            simp at hf
          | none =>
            cases hupd : env.updateError with
            | some e => exact ⟨rfl, by simp⟩
            | none =>
              exfalso
              refine hno (rejectPatch env la lo) ?_
              rw [his_success env la lo hsp hc hr hu hupd]
              simp

/-- Witness for C5: with a failing upload, no row update is among the
run's effects. -/
theorem reject_no_partial_write_witness :
    RejectEffect.rowUpdate (rejectPatch envUploadFail 1 2) ∉
      (handleImageSelection envUploadFail).2 :=
  (reject_no_partial_write envUploadFail).1
    (Or.inr (Or.inr (Or.inr (by decide)))) (rejectPatch envUploadFail 1 2)

/-- C6 (confirmed): when the EXIF metadata yields no coordinate and the
foreground positioning permission is refused, the run fails with the
dedicated no-GPS failure outcome and performs no mutation, so the
complaint row is unchanged and Reject does not proceed; conversely that
failure outcome arises only from this permission-refusal situation
(live positioning returns a coordinate whenever permitted), so it is
precisely the permission-denied failure kind and no other failure —
in particular no post-coordinate failure — produces it. -/
theorem reject_permission_denied :
    (∀ env : RejectEnv, env.sourcePermission = true → env.canceled = false →
      env.exif.bind getCoordsFromExif = none → env.locPermission = false →
      handleImageSelection env = (RejectOutcome.gpsError, [])) ∧
    (∀ env : RejectEnv,
      (handleImageSelection env).1 = RejectOutcome.gpsError →
      env.locPermission = false ∧ env.exif.bind getCoordsFromExif = none) := by
  constructor
  · intro env hperm hcan hm hl
    exact his_nocoord env hperm hcan
      ((resolvedCoords_eq_none_iff env).mpr ⟨hm, hl⟩)
  · intro env h
    cases hsp : env.sourcePermission with
    | false =>
      rw [his_perm_false env hsp] at h
      simp at h
    | true =>
      cases hc : env.canceled with
      | true =>
        rw [his_canceled env hsp hc] at h
        simp at h
      | false =>
        cases hr : resolvedCoords env with
        | none =>
          have hiff := (resolvedCoords_eq_none_iff env).mp hr
          exact ⟨hiff.2, hiff.1⟩
        | some c =>
          obtain ⟨la, lo⟩ := c
          cases hu : env.uploadError with
          | some e =>
            rw [his_uploadFail env la lo e hsp hc hr hu] at h
            simp at h
          | none =>
            cases hupd : env.updateError with
            | some e =>
              rw [his_updateFail env la lo e hsp hc hr hu hupd] at h
              simp at h
            | none =>
              rw [his_success env la lo hsp hc hr hu hupd] at h
              simp at h

/-- Witness for C6: a run with no EXIF data and positioning permission
refused fails with the no-GPS outcome and an empty effect list. -/
theorem reject_permission_denied_witness :
    handleImageSelection envDenied = (RejectOutcome.gpsError, []) :=
  reject_permission_denied.1 envDenied rfl rfl rfl rfl

/-- C9 (confirmed): once a coordinate is resolved, a reverse-geocoding
failure does not fail the resolution or the Reject write — the address
falls back to the fixed placeholder and the single row update still
proceeds, carrying the resolved coordinate. -/
theorem geocode_failure_placeholder (env : RejectEnv) (lat lon : ℚ)
    (e : String)
    (hperm : env.sourcePermission = true) (hcan : env.canceled = false)
    (hco : resolvedCoords env = some (lat, lon))
    (hgeo : env.geocode = Except.error e)
    (hup : env.uploadError = none) (hupd : env.updateError = none) :
    rejectAddress env = addressPlaceholder ∧
    handleImageSelection env =
      (RejectOutcome.success,
       [RejectEffect.storageUpload (fileNameOf env),
        RejectEffect.rowUpdate (rejectPatch env lat lon)]) ∧
    (rejectPatch env lat lon).location = some addressPlaceholder ∧
    (rejectPatch env lat lon).latitude = some lat ∧
    (rejectPatch env lat lon).longitude = some lon := by
  have haddr : rejectAddress env = addressPlaceholder := by
    unfold rejectAddress
    rw [hgeo]
  refine ⟨haddr, his_success env lat lon hperm hcan hco hup hupd, ?_, rfl, rfl⟩
  show some (rejectAddress env) = some addressPlaceholder
  rw [haddr]

/-- Witness for C9 on the sample environment whose geocoder throws. -/
theorem geocode_failure_placeholder_witness :
    rejectAddress envGeoFail = addressPlaceholder :=
  (geocode_failure_placeholder envGeoFail 1 2 "gc down" rfl rfl rfl rfl rfl
    rfl).1
